import Mathlib

/-
  Shallow embedding of `misc/speculative_prompt_caching.ipynb`.

  The notebook demonstrates "speculative prompt caching": while a user is
  typing, a background probe request warms the remote prompt cache so that
  the real request hits a warm cache.  We embed the pure data-flow of the
  notebook (message construction, the concurrent orchestration modelled as
  an explicit timed trace, statistics reporting, the TTFT measurement loop,
  and the percentage-improvement computation) and prove the specified
  properties about it.
-/

namespace SpecCache

/-! ## Data model: content blocks and messages (Anthropic message dicts) -/

/-- A content block of a message: `{"type": ..., "text": ...,
    "cache_control": {"type": "ephemeral"}}`; `cache_control` is optional. -/
structure ContentBlock where
  type : String
  text : String
  cache_control : Option String
  deriving Repr, DecidableEq

/-- A role-tagged message `{"role": ..., "content": [...]}`. -/
structure Message where
  role : String
  content : List ContentBlock
  deriving Repr, DecidableEq

/-- Errors a demonstration run can raise: a failed resource download
    (`httpx.HTTPStatusError` / timeout from `raise_for_status`), a missing
    key in the sources dict (`KeyError`), a failed probe call, or a failed
    final query. -/
inductive DemoError where
  | fetchError (resource : String)
  | keyError (key : String)
  | probeError
  | queryError
  deriving Repr, DecidableEq

/-! ## Configuration constants (notebook cell 3) -/

def MODEL : String := "claude-3-5-sonnet-20241022"

/-- The named remote resources downloaded as context. -/
def SQLITE_SOURCES : List (String × String) :=
  [("btree.h",
    "https://sqlite.org/src/raw/18e5e7b2124c23426a283523e5f31a4bff029131b795bb82391f9d2f3136fc50?at=btree.h"),
   ("btree.c",
    "https://sqlite.org/src/raw/63ca6b647342e8cef643863cd0962a542f133e1069460725ba4461dcda92b03c?at=btree.c")]

/-! ## Context Loader (`get_sqlite_sources`, `create_initial_message`)

  The network is modelled by a function `fetch : String → Option String`
  from a URL to its body: `none` models a request that times out or whose
  `raise_for_status` raises (non-2xx status). -/

/-- Inner `download_file(filename, url)`: perform the GET and pair the
    body with the filename; a failed fetch raises for that resource. -/
def download_file (fetch : String → Option String) (filename url : String) :
    Except DemoError (String × String) :=
  match fetch url with
  | some text => Except.ok (filename, text)
  | none => Except.error (DemoError.fetchError filename)

/-- `asyncio.gather` over the download tasks: all results, or the first
    error; no partial list is ever produced. -/
def gather_downloads (fetch : String → Option String) :
    List (String × String) → Except DemoError (List (String × String))
  | [] => Except.ok []
  | (filename, url) :: rest =>
      match download_file fetch filename url with
      | Except.error e => Except.error e
      | Except.ok r =>
          match gather_downloads fetch rest with
          | Except.error e => Except.error e
          | Except.ok rs => Except.ok (r :: rs)

/-- `get_sqlite_sources`, parameterised over the resource dict it
    iterates (the notebook iterates the global `SQLITE_SOURCES`). -/
def get_sqlite_sources (fetch : String → Option String)
    (sources : List (String × String)) : Except DemoError (List (String × String)) :=
  gather_downloads fetch sources

/-- Leading literal of the context f-string, up to the interpolated
    timestamp. -/
def contextBeforeTime : String := "\nCurrent time: "

/-- The part of the context f-string after the timestamp: the literal
    framing with the two interpolated source files. -/
def contextAfterTime (btreeH btreeC : String) : String :=
  "\n\nSource to Analyze:\n\nbtree.h:\n```c\n" ++ btreeH ++
    "\n```\n\nbtree.c:\n```c\n" ++ btreeC ++ "\n```"

/-- The full interpolated context text. -/
def contextText (now btreeH btreeC : String) : String :=
  contextBeforeTime ++ (now ++ contextAfterTime btreeH btreeC)

/-- The initial (context) message value built by `create_initial_message`
    once the sources are in hand: a single text block carrying the
    timestamp and both files, marked with ephemeral cache control. -/
def initial_message_of (now btreeH btreeC : String) : Message :=
  { role := "user",
    content := [{ type := "text",
                  text := contextText now btreeH btreeC,
                  cache_control := some "ephemeral" }] }

/-- `create_initial_message`: download the sources, then build the context
    message.  The f-string evaluates `sources["btree.h"]` first, then
    `sources["btree.c"]`; a missing key raises `KeyError` for that key. -/
def create_initial_message (fetch : String → Option String)
    (sources : List (String × String)) (now : String) : Except DemoError Message :=
  match get_sqlite_sources fetch sources with
  | Except.error e => Except.error e
  | Except.ok downloaded =>
    match downloaded.lookup "btree.h" with
    | none => Except.error (DemoError.keyError "btree.h")
    | some btreeH =>
      match downloaded.lookup "btree.c" with
      | none => Except.error (DemoError.keyError "btree.c")
      | some btreeC => Except.ok (initial_message_of now btreeH btreeC)

/-! ## Runs (for the cross-run uniqueness property)

  A demonstration run is identified by which invocation it is plus the
  clock reading `datetime.datetime.now().strftime("%Y-%m-%d %H:%M:%S")`
  observed when its context message is built: one-second granularity. -/

/-- A demonstration run: its invocation index and the formatted
    second-granularity timestamp it observed. -/
structure DemoRun where
  runId : Nat
  clockSecond : String
  deriving Repr, DecidableEq

/-- The context message a run constructs from reference text
    `(btreeH, btreeC)`: it depends only on the run's formatted timestamp
    and the reference text. -/
def messageOfRun (r : DemoRun) (btreeH btreeC : String) : Message :=
  initial_message_of r.clockSecond btreeH btreeC

/-! ## Client arguments and the probe (`DEFAULT_CLIENT_ARGS`, `sample_one_token`)

  `sample_one_token` deep-copies the global default arguments, overrides
  `max_tokens` to 1 on the copy, and sends the request with that copy; the
  global stays untouched.  We model the call as returning both the request
  arguments actually sent and the value of the global binding after the
  call (the deep copy means the latter is the unmodified input). -/

/-- The keyword arguments dict passed to the API. -/
structure ClientArgs where
  system : String
  max_tokens : Nat
  temperature : Nat
  extra_headers : List (String × String)
  deriving Repr, DecidableEq

/-- The global default arguments (notebook cell 3). -/
def DEFAULT_CLIENT_ARGS : ClientArgs :=
  { system := "You are an expert systems programmer helping analyze database internals.",
    max_tokens := 4096,
    temperature := 0,
    extra_headers := [("anthropic-beta", "prompt-caching-2024-07-31")] }

/-- `sample_one_token`, restricted to its argument handling: first
    component is the arguments dict the probe request is sent with
    (`args = copy.deepcopy(DEFAULT_CLIENT_ARGS); args["max_tokens"] = 1`),
    second component is the global `DEFAULT_CLIENT_ARGS` binding after the
    call (the update happened on the deep copy, not on the global). -/
def sample_one_token_args (globalArgs : ClientArgs) : ClientArgs × ClientArgs :=
  let args := globalArgs
  let args := { args with max_tokens := 1 }
  (args, globalArgs)

/-! ## Query statistics reporting (`print_query_statistics`) -/

/-- The usage object attached to a response; the two cache counters may be
    absent as attributes (hence `getattr` with a default in the source). -/
structure Usage where
  input_tokens : Nat
  output_tokens : Nat
  cache_read_input_tokens : Option Nat
  cache_creation_input_tokens : Option Nat
  deriving Repr, DecidableEq

/-- A reported statistic: either the numeric count or the `"---"`
    placeholder printed when the attribute is missing. -/
inductive StatValue where
  | num (n : Nat)
  | missing
  deriving Repr, DecidableEq

/-- The four values `print_query_statistics` surfaces, in print order. -/
structure QueryStatistics where
  inputTokens : Nat
  outputTokens : Nat
  cacheReadInputTokens : StatValue
  cacheCreationInputTokens : StatValue
  deriving Repr, DecidableEq

/-- `print_query_statistics`: print `response.usage.input_tokens`,
    `response.usage.output_tokens`, and the two cache counters via
    `getattr(..., '---')`.  Modelled as the record of printed values. -/
def print_query_statistics (usage : Usage) : QueryStatistics :=
  { inputTokens := usage.input_tokens,
    outputTokens := usage.output_tokens,
    cacheReadInputTokens :=
      match usage.cache_read_input_tokens with
      | some n => StatValue.num n
      | none => StatValue.missing,
    cacheCreationInputTokens :=
      match usage.cache_creation_input_tokens with
      | some n => StatValue.num n
      | none => StatValue.missing }

/-! ## Time to first token (the streaming loops of both demos)

  Both demos run
  `async for text in stream.text_stream: if first_token_time is None and
  text.strip(): first_token_time = time.time() - start_time; break`.
  We model the stream as the list of `(text, elapsed)` pairs, where
  `elapsed` is the value `time.time() - start_time` would take when that
  chunk is processed, and compute the recorded `first_token_time`. -/

/-- The characters `str.strip()` removes: Python whitespace, i.e. the
    ASCII whitespace and separator controls (0x09-0x0D, 0x1C-0x1F,
    space), NEL (0x85), no-break space (0xA0), Ogham space mark (0x1680),
    the Unicode space separators 0x2000-0x200A, the line and paragraph
    separators (0x2028, 0x2029), narrow no-break space (0x202F), medium
    mathematical space (0x205F) and ideographic space (0x3000). -/
def pyIsSpace (c : Char) : Bool :=
  (0x09 ≤ c.toNat && c.toNat ≤ 0x0d) ||
  (0x1c ≤ c.toNat && c.toNat ≤ 0x1f) ||
  c.toNat = 0x20 ||
  c.toNat = 0x85 ||
  c.toNat = 0xa0 ||
  c.toNat = 0x1680 ||
  (0x2000 ≤ c.toNat && c.toNat ≤ 0x200a) ||
  c.toNat = 0x2028 ||
  c.toNat = 0x2029 ||
  c.toNat = 0x202f ||
  c.toNat = 0x205f ||
  c.toNat = 0x3000

/-- Python `text.strip()`: drop whitespace from both ends. -/
def pyStrip (s : String) : String :=
  String.mk (((s.data.dropWhile pyIsSpace).reverse.dropWhile pyIsSpace).reverse)

/-- The truthiness test `if ... and text.strip():` on a chunk. -/
def chunkIsVisible (text : String) : Bool :=
  pyStrip text ≠ ""

/-- The streaming measurement loop: the first chunk whose stripped text is
    truthy sets `first_token_time` to its elapsed time and breaks; chunks
    that strip to empty leave it `None`. -/
def measure_first_token_time : List (String × Nat) → Option Nat
  | [] => none
  | (text, elapsed) :: rest =>
      if chunkIsVisible text then some elapsed
      else measure_first_token_time rest

/-! ## Performance comparison (notebook cell 13)

  Timings are floats in the source; we embed them as rationals. -/

/-- `ttft_improvement = (standard_ttft - speculative_ttft) / standard_ttft * 100`. -/
def ttft_improvement (standard_ttft speculative_ttft : ℚ) : ℚ :=
  (standard_ttft - speculative_ttft) / standard_ttft * 100

/-- `total_improvement = (standard_total - speculative_total) / standard_total * 100`. -/
def total_improvement (standard_total speculative_total : ℚ) : ℚ :=
  (standard_total - speculative_total) / standard_total * 100

/-- The improvement formula as the specification words it:
    "(standard − speculative)/standard × 100", written as the relative
    saving `100 · (1 − speculative/standard)`. -/
def spec_percentage_improvement (standard speculative : ℚ) : ℚ :=
  100 * (1 - speculative / standard)

/-! ## The Cache-Warming Race (`speculative_prompt_caching_demo`)

  The orchestration is single-threaded cooperative concurrency:
  `cache_task = asyncio.create_task(sample_one_token(client, [initial_message]))`
  starts the probe, `await asyncio.sleep(3)` is the think-time wait, and
  `await cache_task` joins the probe before the real request is built and
  sent.  We embed one run as a timed trace over an environment fixing the
  think time, the probe duration, and whether each service call succeeds.
  Awaiting a task whose coroutine raised re-raises the exception in the
  awaiter, so a failed probe aborts the demo at the join. -/

/-- Observable events of a run, stamped with the time unit at which they
    occur. -/
inductive Event where
  | probeSend (t : Nat) (msgs : List Message)
  | probeDone (t : Nat)
  | thinkDone (t : Nat)
  | finalSend (t : Nat) (msgs : List Message)
  deriving Repr, DecidableEq

/-- Does an event send the real (final) request? -/
def Event.isFinalSend : Event → Bool
  | Event.finalSend _ _ => true
  | _ => false

/-- Environment of one run: simulated typing time, how long the probe
    call takes, and fault-injection switches for the two service calls. -/
structure SpecEnv where
  thinkTime : Nat
  probeDuration : Nat
  probeOk : Bool
  finalOk : Bool
  deriving Repr, DecidableEq

/-- What a successfully completed run hands back for inspection: when the
    real request was sent, the message lists passed to the probe call and
    to the final call, and the value of `initial_message` after the run
    (the question was appended to `copy.deepcopy(initial_message)`, so the
    original binding is unchanged). -/
structure RunRecord where
  finalSendTime : Nat
  probeMessages : List Message
  finalMessages : List Message
  initialAfter : Message
  deriving Repr, DecidableEq

/-- The question block appended to the copied context message:
    `{"type": "text", "text": f"Answer the user's question: {user_question}"}`. -/
def question_block (user_question : String) : ContentBlock :=
  { type := "text",
    text := "Answer the user\x27s question: " ++ user_question,
    cache_control := none }

/-- `cached_message = copy.deepcopy(initial_message);
    cached_message["content"].append(...)`: a fresh message whose content
    is the original content with the question block appended. -/
def build_cached_message (initial_message : Message) (user_question : String) : Message :=
  { initial_message with
    content := initial_message.content ++ [question_block user_question] }

/-- One run of `speculative_prompt_caching_demo` over environment `env`,
    given the already-built context message and the user question: the
    probe is sent at time 0 carrying `[initial_message]` and completes at
    `env.probeDuration`; the think-time wait completes at `env.thinkTime`;
    the join `await cache_task` resumes the demo at the max of the two.
    If the probe raised, the exception propagates there and no final
    request is sent; otherwise the final request carrying the copied
    context plus the question is sent at the join time. -/
def speculative_prompt_caching_demo (env : SpecEnv) (initial_message : Message)
    (user_question : String) : List Event × Except DemoError RunRecord :=
  let probeDoneT := env.probeDuration
  let thinkDoneT := env.thinkTime
  let joinT := max thinkDoneT probeDoneT
  if env.probeOk then
    let cached_message := build_cached_message initial_message user_question
    ([Event.probeSend 0 [initial_message], Event.probeDone probeDoneT,
      Event.thinkDone thinkDoneT, Event.finalSend joinT [cached_message]],
     if env.finalOk then
       Except.ok { finalSendTime := joinT,
                   probeMessages := [initial_message],
                   finalMessages := [cached_message],
                   initialAfter := initial_message }
     else Except.error DemoError.queryError)
  else
    ([Event.probeSend 0 [initial_message], Event.probeDone probeDoneT,
      Event.thinkDone thinkDoneT],
     Except.error DemoError.probeError)

/-- One run of `standard_prompt_caching_demo` (the baseline): no probe;
    the think-time wait elapses, then
    `full_message = copy.deepcopy(initial_message)` gets the question
    appended and the request is sent sequentially at `env.thinkTime`. -/
def standard_prompt_caching_demo (env : SpecEnv) (initial_message : Message)
    (user_question : String) : List Event × Except DemoError RunRecord :=
  let full_message := build_cached_message initial_message user_question
  ([Event.thinkDone env.thinkTime, Event.finalSend env.thinkTime [full_message]],
   if env.finalOk then
     Except.ok { finalSendTime := env.thinkTime,
                 probeMessages := [],
                 finalMessages := [full_message],
                 initialAfter := initial_message }
   else Except.error DemoError.queryError)

/-- A small concrete context message used to instantiate theorems on
    concrete inputs. -/
def sampleContextMessage : Message :=
  initial_message_of "2025-01-01 12:00:00" "H" "C"

/-- The question used by both demos. -/
def sampleQuestion : String := "What is the purpose of the BtShared structure?"

/-!
## Theorems
-/

/-- C2: in every execution of `speculative_prompt_caching_demo`, a
    `finalSend` event occurs exactly at the join `max(thinkTime,
    probeDuration)`, hence at or after both the think-time completion and
    the probe completion, for all probe and think durations. -/
theorem final_send_after_join (env : SpecEnv) (m : Message) (q : String)
    (t : Nat) (ms : List Message)
    (h : Event.finalSend t ms ∈ (speculative_prompt_caching_demo env m q).1) :
    t = max env.thinkTime env.probeDuration ∧
      env.thinkTime ≤ t ∧ env.probeDuration ≤ t := by
  unfold speculative_prompt_caching_demo at h
  by_cases hp : env.probeOk
  · simp [hp] at h
    obtain ⟨ht, -⟩ := h
    subst ht
    exact ⟨rfl, le_max_left _ _, le_max_right _ _⟩
  · simp [hp] at h

/-- Witness for `final_send_after_join`: end-to-end scenario B (think
    time 1, probe 4, probe dominates). -/
theorem final_send_after_join_witness :
    (4 : Nat) = max 1 4 ∧ (1 : Nat) ≤ 4 ∧ (4 : Nat) ≤ 4 :=
  final_send_after_join ⟨1, 4, true, true⟩ sampleContextMessage sampleQuestion 4
    [build_cached_message sampleContextMessage sampleQuestion] (by decide)

/-- C1 counterexample: a concrete run in which the underlying final
    service call would succeed (`finalOk = true`) but the probe fails:
    the run aborts with the probe's exception and the real request is
    never issued — no `finalSend` event occurs.  There is no exception
    handler around `await cache_task`, so a probe failure does prevent
    the final request, refuting the claimed degradation behaviour. -/
theorem probe_failure_blocks_final_request :
    (SpecEnv.mk 3 2 false true).finalOk = true ∧
    (speculative_prompt_caching_demo ⟨3, 2, false, true⟩ sampleContextMessage
        sampleQuestion).2 = Except.error DemoError.probeError ∧
    ((speculative_prompt_caching_demo ⟨3, 2, false, true⟩ sampleContextMessage
        sampleQuestion).1.all fun e => !(Event.isFinalSend e)) = true := by
  refine ⟨rfl, rfl, ?_⟩
  decide

/-- C1 amended: if the probe call fails, the exception re-raised at
    `await cache_task` aborts the run — the result is `ProbeError` and
    the real request is never attempted (no `finalSend` event in the
    trace), regardless of whether the underlying final call would have
    succeeded. -/
theorem probe_failure_aborts_run (env : SpecEnv) (m : Message) (q : String)
    (hfail : env.probeOk = false) :
    (speculative_prompt_caching_demo env m q).2 = Except.error DemoError.probeError ∧
    ((speculative_prompt_caching_demo env m q).1.all fun e => !(Event.isFinalSend e)) = true := by
  unfold speculative_prompt_caching_demo
  simp [hfail, Event.isFinalSend, List.all]

/-- Witness for `probe_failure_aborts_run` at a concrete faulty run. -/
theorem probe_failure_aborts_run_witness :
    (speculative_prompt_caching_demo ⟨3, 5, false, true⟩ sampleContextMessage
        sampleQuestion).2 = Except.error DemoError.probeError ∧
    ((speculative_prompt_caching_demo ⟨3, 5, false, true⟩ sampleContextMessage
        sampleQuestion).1.all fun e => !(Event.isFinalSend e)) = true :=
  probe_failure_aborts_run ⟨3, 5, false, true⟩ sampleContextMessage sampleQuestion rfl

/-- C3 counterexample: the uniqueness token is
    `datetime.now().strftime("%Y-%m-%d %H:%M:%S")`, a one-second
    granularity timestamp.  Two distinct runs (different invocation
    indices) that observe the same clock second and download identical
    reference text construct byte-identical context messages, refuting
    "never byte-identical for every pair of distinct runs". -/
theorem same_second_runs_collide :
    (DemoRun.mk 0 "2025-01-01 12:00:00" ≠ DemoRun.mk 1 "2025-01-01 12:00:00") ∧
    messageOfRun ⟨0, "2025-01-01 12:00:00"⟩ "H" "C" =
      messageOfRun ⟨1, "2025-01-01 12:00:00"⟩ "H" "C" := by
  exact ⟨by decide, rfl⟩

/-- C3 amended: two runs whose observed formatted timestamps differ (in
    particular any two runs at least one second apart) construct context
    messages that are never byte-identical, even on identical reference
    text; two runs within the same clock second can collide. -/
theorem distinct_timestamps_distinct_messages (r1 r2 : DemoRun)
    (btreeH btreeC : String) (hne : r1.clockSecond ≠ r2.clockSecond) :
    messageOfRun r1 btreeH btreeC ≠ messageOfRun r2 btreeH btreeC := by
  intro heq
  apply hne
  have htext : contextText r1.clockSecond btreeH btreeC =
      contextText r2.clockSecond btreeH btreeC := by
    have hc := congrArg Message.content heq
    simpa [messageOfRun, initial_message_of] using hc
  unfold contextText at htext
  have hdata := congrArg String.data htext
  rw [String.data_append, String.data_append, String.data_append,
    String.data_append] at hdata
  have h1 := List.append_cancel_left hdata
  have h2 := List.append_cancel_right h1
  exact String.ext h2

/-- Witness for `distinct_timestamps_distinct_messages`: two runs one
    second apart, identical reference text. -/
theorem distinct_timestamps_distinct_messages_witness :
    messageOfRun ⟨0, "2025-01-01 12:00:00"⟩ "H" "C" ≠
      messageOfRun ⟨1, "2025-01-01 12:00:01"⟩ "H" "C" :=
  distinct_timestamps_distinct_messages ⟨0, "2025-01-01 12:00:00"⟩
    ⟨1, "2025-01-01 12:00:01"⟩ "H" "C" (by decide)

/-- C4: for every resource set and every network behaviour, the Context
    Loader either returns a mapping whose key list is exactly the
    requested resource names, or fails with the first fetch error and no
    partial mapping is returned (the result type carries either the full
    mapping or only the error). -/
theorem get_sqlite_sources_all_or_nothing (fetch : String → Option String)
    (sources : List (String × String)) :
    (∃ m, get_sqlite_sources fetch sources = Except.ok m ∧
          m.map Prod.fst = sources.map Prod.fst) ∨
    (∃ e, get_sqlite_sources fetch sources = Except.error e) := by
  induction sources with
  | nil => exact Or.inl ⟨[], rfl, rfl⟩
  | cons p rest ih =>
    obtain ⟨fn, url⟩ := p
    cases hf : fetch url with
    | none =>
      refine Or.inr ⟨DemoError.fetchError fn, ?_⟩
      simp [get_sqlite_sources, gather_downloads, download_file, hf]
    | some text =>
      rcases ih with ⟨m, hm, hk⟩ | ⟨e, he⟩
      · refine Or.inl ⟨(fn, text) :: m, ?_, ?_⟩
        · simp only [get_sqlite_sources] at hm
          simp [get_sqlite_sources, gather_downloads, download_file, hf, hm]
        · simp [hk]
      · refine Or.inr ⟨e, ?_⟩
        simp only [get_sqlite_sources] at he
        simp [get_sqlite_sources, gather_downloads, download_file, hf, he]

/-- C5: in every successfully completed speculative run, the context
    message is reused without mutation: the probe call carried exactly
    the original context message, the final request's single message is
    the original content blocks with the question block appended (so its
    leading blocks are byte-identical to the context message's blocks),
    and the original `initial_message` is unchanged after the run — the
    question was appended to a deep copy, not to the original. -/
theorem context_message_immutable_and_reused (env : SpecEnv) (m : Message)
    (q : String) (r : RunRecord)
    (h : (speculative_prompt_caching_demo env m q).2 = Except.ok r) :
    r.initialAfter = m ∧
    r.probeMessages = [m] ∧
    r.finalMessages.map Message.content = [m.content ++ [question_block q]] ∧
    r.finalMessages.map (fun fm => fm.content.take m.content.length) = [m.content] := by
  unfold speculative_prompt_caching_demo at h
  by_cases hp : env.probeOk
  · by_cases hfin : env.finalOk
    · simp [hp, hfin] at h
      subst h
      refine ⟨rfl, rfl, by simp [build_cached_message], ?_⟩
      simp [build_cached_message, List.take_left]
    · simp [hp, hfin] at h
  · simp [hp] at h

/-- Witness for `context_message_immutable_and_reused` on a concrete
    completed run. -/
theorem context_message_immutable_and_reused_witness :
    (RunRecord.mk 3 [sampleContextMessage]
        [build_cached_message sampleContextMessage sampleQuestion]
        sampleContextMessage).initialAfter = sampleContextMessage ∧
    (RunRecord.mk 3 [sampleContextMessage]
        [build_cached_message sampleContextMessage sampleQuestion]
        sampleContextMessage).probeMessages = [sampleContextMessage] ∧
    (RunRecord.mk 3 [sampleContextMessage]
        [build_cached_message sampleContextMessage sampleQuestion]
        sampleContextMessage).finalMessages.map Message.content =
      [sampleContextMessage.content ++ [question_block sampleQuestion]] ∧
    (RunRecord.mk 3 [sampleContextMessage]
        [build_cached_message sampleContextMessage sampleQuestion]
        sampleContextMessage).finalMessages.map
        (fun fm => fm.content.take sampleContextMessage.content.length) =
      [sampleContextMessage.content] :=
  context_message_immutable_and_reused ⟨3, 2, true, true⟩ sampleContextMessage
    sampleQuestion _ rfl

/-- C6: the measurement loop records time-to-first-token at the first
    streamed chunk whose text is non-empty after stripping whitespace:
    chunks that strip to empty never set it (an all-whitespace stream
    records nothing), and the first chunk with non-whitespace text sets
    it to that chunk's elapsed time since the request was submitted. -/
theorem first_token_time_at_first_visible_chunk :
    (∀ (pre : List (String × Nat)) (text : String) (t : Nat)
        (post : List (String × Nat)),
        (∀ p ∈ pre, chunkIsVisible p.1 = false) →
        chunkIsVisible text = true →
        measure_first_token_time (pre ++ (text, t) :: post) = some t) ∧
    (∀ chunks : List (String × Nat),
        (∀ p ∈ chunks, chunkIsVisible p.1 = false) →
        measure_first_token_time chunks = none) := by
  constructor
  · intro pre text t post hpre hvis
    induction pre with
    | nil => simp [measure_first_token_time, hvis]
    | cons p rest ih =>
      have hp := hpre p (List.mem_cons_self p rest)
      have hrest : ∀ x ∈ rest, chunkIsVisible x.1 = false := by
        intro x hx
        exact hpre x (List.mem_cons_of_mem p hx)
      obtain ⟨ptext, pt⟩ := p
      simp only [chunkIsVisible] at hp
      simp [measure_first_token_time, chunkIsVisible, hp, ih hrest]
  · intro chunks hall
    induction chunks with
    | nil => rfl
    | cons p rest ih =>
      have hp := hall p (List.mem_cons_self p rest)
      have hrest : ∀ x ∈ rest, chunkIsVisible x.1 = false := by
        intro x hx
        exact hall x (List.mem_cons_of_mem p hx)
      obtain ⟨ptext, pt⟩ := p
      simp only [chunkIsVisible] at hp
      simp [measure_first_token_time, chunkIsVisible, hp, ih hrest]

/-- Witness for `first_token_time_at_first_visible_chunk`: a stream whose
    first three chunks strip to empty — including one that is a no-break
    space (whitespace to `str.strip()` though not ASCII) followed by a
    space — records TTFT at the fourth chunk, and an
    all-whitespace stream records nothing. -/
theorem first_token_time_at_first_visible_chunk_witness :
    measure_first_token_time
      [("", 0), (" \n\t ", 1), ("\xa0 ", 2), ("Hello", 3), ("x", 4)] = some 3 ∧
    measure_first_token_time [("", 0), (" \n\t ", 1), ("\xa0 ", 2)] = none :=
  ⟨first_token_time_at_first_visible_chunk.1 [("", 0), (" \n\t ", 1), ("\xa0 ", 2)]
      "Hello" 3 [("x", 4)] (by decide) (by decide),
   first_token_time_at_first_visible_chunk.2 [("", 0), (" \n\t ", 1), ("\xa0 ", 2)]
      (by decide)⟩

/-- C7: `print_query_statistics` surfaces the service's usage counts
    unmodified — for any usage carrying all four counts, the reported
    statistics are exactly those values (it is a pure projection of the
    usage object; the values feed no control decision). -/
theorem print_query_statistics_roundtrip (i o cr cc : Nat) :
    print_query_statistics ⟨i, o, some cr, some cc⟩ =
      ⟨i, o, StatValue.num cr, StatValue.num cc⟩ := rfl

/-- C8: the computed percentage improvements equal the specification's
    formula (standard − speculative)/standard × 100 — equivalently the
    relative saving 100·(1 − speculative/standard) — whenever the
    standard timing is nonzero, for both the TTFT comparison and the
    total-time comparison. -/
theorem improvement_matches_spec_formula (s p : ℚ) (hs : s ≠ 0) :
    ttft_improvement s p = spec_percentage_improvement s p ∧
    total_improvement s p = spec_percentage_improvement s p := by
  unfold ttft_improvement total_improvement spec_percentage_improvement
  constructor <;> (field_simp; ring)

/-- Witness for `improvement_matches_spec_formula` at standard 2,
    speculative 1. -/
theorem improvement_matches_spec_formula_witness :
    ttft_improvement 2 1 = spec_percentage_improvement 2 1 ∧
    total_improvement 2 1 = spec_percentage_improvement 2 1 :=
  improvement_matches_spec_formula 2 1 (by norm_num)

/-- C9: the probe sends its request with `max_tokens` overridden to
    exactly 1 while every other generation parameter equals the default,
    and the global `DEFAULT_CLIENT_ARGS` (including its `max_tokens` of
    4096 and nested `extra_headers`) is unchanged after the call, since
    the override is applied to a deep copy. -/
theorem sample_one_token_overrides_only_max_tokens (g : ClientArgs) :
    (sample_one_token_args g).1.max_tokens = 1 ∧
    (sample_one_token_args g).1.system = g.system ∧
    (sample_one_token_args g).1.temperature = g.temperature ∧
    (sample_one_token_args g).1.extra_headers = g.extra_headers ∧
    (sample_one_token_args g).2 = g ∧
    DEFAULT_CLIENT_ARGS.max_tokens = 4096 ∧
    DEFAULT_CLIENT_ARGS.extra_headers =
      [("anthropic-beta", "prompt-caching-2024-07-31")] :=
  ⟨rfl, rfl, rfl, rfl, rfl, rfl, rfl⟩

/-- C10: on the empty resource set the Context Loader succeeds with the
    empty mapping, but `create_initial_message` then fails: the f-string
    unconditionally evaluates `sources["btree.h"]` first, raising a
    `KeyError` for that key. -/
theorem empty_resource_set_behaviour (fetch : String → Option String) (now : String) :
    get_sqlite_sources fetch [] = Except.ok [] ∧
    create_initial_message fetch [] now = Except.error (DemoError.keyError "btree.h") :=
  ⟨rfl, rfl⟩

end SpecCache
